import Mathlib

/-!
Shallow embedding of the Kyrhanu 2.0 daily content-generation and run engine:
the Mulberry32 PRNG (src/dist/utils/rng.js), the daily character generator and
damage formula (src/src/utils/stats.ts), and the /runs/act run state machine
(src/dist/routes/guilds.routes.js).

Modelling conventions: JS numbers holding integer values are modelled as exact
integers (Nat/Int); the JS ToUint32 coercion (x >>> 0 and the implicit coercion
performed by the bitwise operators ^, |, >>>) is reduction mod 2^32; Math.imul
is a multiply reduced mod 2^32.  Every PRNG output is the dyadic rational
x / 2^32 with numerator x < 2^32; each float computation the code performs on
such an output (multiplying by a list length 4 or by the roll span 9 and
flooring, or dividing an integer by 3 or multiplying by 0.75 = 3/4 and taking
floor/ceil) is exact in IEEE double precision at these magnitudes, so the
Nat/Int/Rat model is bit-faithful to the JS evaluation there.

One exception is load-bearing: the PRNG's stored accumulator `t` is a binary64
double that rng.js never masks, so once `t` exceeds 2^53 (after about 4.9
million draws) the JS addition `t += 0x6D2B79F5` rounds.  Two accumulator
models are therefore kept side by side: `implT`, the exact-integer
idealization (bit-faithful while the accumulator is at most 2^53, which covers
the 8 draws character generation uses), and `floatT`, the genuine binary64
semantics with round-to-nearest-ties-to-even on every update.
-/

namespace Kyrhanu

/-- 2^32, the modulus of every JS unsigned-32-bit coercion. -/
def U32 : Nat := 4294967296

/-- JS ToUint32 (`seed >>> 0`) applied to an integer-valued number. -/
def toUint32 (n : Int) : Nat := (n % (U32 : Int)).toNat

/-- JS Math.imul: 32-bit wrapping multiply, viewed as its residue mod 2^32. -/
def imul (a b : Nat) : Nat := a * b % U32

/-- The per-call additive constant 0x6D2B79F5 of mulberry32 (rng.js line 9). -/
def KADD : Nat := 0x6D2B79F5

/-- The xorshift-multiply mixing performed by one mulberry32 call on the
current accumulator `t` (rng.js lines 10-13):
`let x = Math.imul(t ^ (t >>> 15), 1 | t); x ^= x + Math.imul(x ^ (x >>> 7), 61 | x);
return ((x ^ (x >>> 14)) >>> 0) / 4294967296`.  Each bitwise operator coerces
its operands via ToUint32/ToInt32, so all uses of `t` see `t mod 2^32`; the
residues of the signed intermediates agree with unsigned residues mod 2^32.
The result here is the numerator of the returned value (the final `>>> 0`). -/
def mulberryMix (t : Nat) : Nat :=
  let t32 := t % U32
  let x1 := imul (t32 ^^^ (t32 >>> 15)) (1 ||| t32)
  let x2 := x1 ^^^ ((x1 + imul (x1 ^^^ (x1 >>> 7)) (61 ||| x1)) % U32)
  (x2 ^^^ (x2 >>> 14)) % U32

/-- Exact-integer idealization of the implementation's stored accumulator
after `n` updates `t += 0x6D2B79F5`.  As in rng.js, the stored `t` is never
masked; only its uses inside the mixing coerce mod 2^32.  The stored `t` is
really a binary64 double, which adds exactly only while the sum stays at most
2^53, so this idealization is bit-faithful to the program exactly in that
regime (about the first 4.9 million draws; in particular the 8 draws consumed
by generateDailyCharacter).  The genuine rounding semantics is `floatT` below;
`mulberry32_eq_masked_reference_in_exact_regime` proves the two agree while
the accumulator is exact. -/
def implT (seed : Int) : Nat → Nat
  | 0 => toUint32 seed
  | n + 1 => implT seed n + KADD

/-- Numerator of the n-th (0-based) draw of the generator `mulberry32(seed)`:
the first call increments `t` once and then mixes. -/
def mulberry32 (seed : Int) (n : Nat) : Nat := mulberryMix (implT seed (n + 1))

/-- The value returned by the n-th draw: numerator divided by 4294967296. -/
def mulberryValue (seed : Int) (n : Nat) : ℚ := (mulberry32 seed n : ℚ) / (U32 : ℚ)

/-- Reference accumulator of the fully-masked Mulberry32 as the documentation
words it: the state update `t = t + 0x6D2B79F5` is itself reduced to unsigned
32 bits after each addition. -/
def refT (seed : Int) : Nat → Nat
  | 0 => toUint32 seed
  | n + 1 => (refT seed n + KADD) % U32

/-- Numerator of the n-th draw of the fully-masked reference Mulberry32 (the
mixing already reduces every intermediate mod 2^32). -/
def mulberry32Ref (seed : Int) (n : Nat) : Nat := mulberryMix (refT seed (n + 1))

/-- Value of the n-th draw of the fully-masked reference. -/
def mulberryValueRef (seed : Int) (n : Nat) : ℚ := (mulberry32Ref seed n : ℚ) / (U32 : ℚ)

/-- Floor of log2, computed with explicit fuel so the recursion is structural
and kernel-reducible; `fuel = n` always suffices since the argument halves
each step. -/
def log2fuel : Nat → Nat → Nat
  | 0, _ => 0
  | fuel + 1, n => if n < 2 then 0 else log2fuel fuel (n / 2) + 1

/-- Exponent of the binary64 unit in the last place at an integer magnitude:
integers up to 2^53 are exactly representable (ulp 2^0); in the binade
[2^e, 2^(e+1)) with e at least 53 the ulp is 2^(e-52). -/
def ulpExp (s : Nat) : Nat := if s < 2 ^ 53 then 0 else log2fuel s s - 52

/-- IEEE-754 binary64 rounding (round to nearest, ties to even) of a
nonnegative integer: round to the nearest multiple of the ulp at its
magnitude, an exact half going to the neighbour whose significand is even,
i.e. the multiple of twice the ulp.  This is what the JS addition
`t += 0x6D2B79F5` does to the exact sum once it leaves the exact range. -/
def roundNE (s : Nat) : Nat :=
  let u := 2 ^ ulpExp s
  let q := s / u
  let r := s % u
  if 2 * r < u then q * u
  else if u < 2 * r then (q + 1) * u
  else if q % 2 = 0 then q * u else (q + 1) * u

/-- The stored accumulator of rng.js as the binary64 double it really is:
every update `t += 0x6D2B79F5` rounds the exact sum to the binary64 grid
(exactly while the sum stays at most 2^53, by `roundNE_exact` below). -/
def floatT (seed : Int) : Nat → Nat
  | 0 => toUint32 seed
  | n + 1 => roundNE (floatT seed n + KADD)

/-- Numerator of the n-th (0-based) draw of the implementation under genuine
binary64 accumulator semantics. -/
def mulberry32Double (seed : Int) (n : Nat) : Nat := mulberryMix (floatT seed (n + 1))

/-- Value of the n-th draw under genuine binary64 accumulator semantics. -/
def mulberryValueDouble (seed : Int) (n : Nat) : ℚ :=
  (mulberry32Double seed n : ℚ) / (U32 : ℚ)

/-- rng.js `randInt(r, min, max) = Math.floor(r() * (max - min + 1)) + min`,
with `x` the numerator of the draw `r()` consumed by the call.  For the spans
used by the code the float product `(x / 2^32) * (max - min + 1)` is exact, so
its floor is the integer division below. -/
def randInt (x : Nat) (min max : Int) : Int :=
  ((x * (max - min + 1).toNat / U32 : Nat) : Int) + min

/-- rng.js `pick(r, arr) = arr[Math.floor(r() * arr.length)]`, with `x` the
numerator of the draw consumed by the call.  Both call sites pass a 4-element
array, for which the index is always in range (proved below), so the `getD`
default is never returned. -/
def pick {α : Type} [Inhabited α] (x : Nat) (arr : List α) : α :=
  arr.getD (x * arr.length / U32) default

/-- Base stat vector of an archetype (stats.ts).  The source field `def` is a
Lean keyword, hence the quoted name. -/
structure BaseStats where
  hp : Int
  atk : Int
  «def» : Int
  spd : Int
  crit : Int
  luck : Int
deriving DecidableEq, Repr, Inhabited

/-- One catalog entry of stats.ts ARCHETYPES. -/
structure Archetype where
  id : String
  name : String
  base : BaseStats
deriving DecidableEq, Repr, Inhabited

/-- The fixed 4-entry archetype catalog (stats.ts lines 5-10), in source order. -/
def ARCHETYPES : List Archetype :=
  [ ⟨"KOZAK", "Козак-Характерник", ⟨120, 14, 10, 10, 5, 6⟩⟩,
    ⟨"MOLFAR", "Мольфар", ⟨95, 18, 7, 11, 7, 10⟩⟩,
    ⟨"BEREHYNIA", "Берегиня", ⟨110, 12, 12, 10, 5, 9⟩⟩,
    ⟨"PLASTUN", "Пластун", ⟨100, 15, 9, 14, 9, 7⟩⟩ ]

/-- The fixed 4-entry flavor passive catalog (stats.ts, local `passives`). -/
def PASSIVES : List String :=
  [ "Курганний інстинкт: +1 удача в першому енкаунтері",
    "Січовий крок: +1 швидкість у забігах",
    "Шепіт мавок: +2 крит проти боса",
    "Оберіг: 1 раз на забіг зменшує шкоду на 20%" ]

/-- Rolled stat vector of a generated character. -/
structure Stats where
  hp : Int
  atk : Int
  «def» : Int
  spd : Int
  crit : Int
  luck : Int
deriving DecidableEq, Repr

/-- Output record of generateDailyCharacter (stats.ts lines 35-40). -/
structure Character where
  archetype_id : String
  archetype_name : String
  stats : Stats
  passive : String
deriving DecidableEq, Repr

/-- stats.ts generateDailyCharacter: a fresh mulberry32 generator is built from
the seed on every invocation and its draws are consumed in source evaluation
order: draw 0 picks the archetype, draws 1-6 roll hp, atk, def, spd, crit,
luck (each `base + randInt(r, -3, 5)`; crit and luck floored at 0 by
`Math.max(0, ...)`), draw 7 picks the passive.  The draw index makes the
threading of the single closure-local PRNG state explicit; there is no other
state. -/
def generateDailyCharacter (seed : Int) : Character :=
  let archetype := pick (mulberry32 seed 0) ARCHETYPES
  { archetype_id := archetype.id
    archetype_name := archetype.name
    stats :=
      { hp := archetype.base.hp + randInt (mulberry32 seed 1) (-3) 5
        atk := archetype.base.atk + randInt (mulberry32 seed 2) (-3) 5
        «def» := archetype.base.«def» + randInt (mulberry32 seed 3) (-3) 5
        spd := archetype.base.spd + randInt (mulberry32 seed 4) (-3) 5
        crit := max 0 (archetype.base.crit + randInt (mulberry32 seed 5) (-3) 5)
        luck := max 0 (archetype.base.luck + randInt (mulberry32 seed 6) (-3) 5) }
    passive := pick (mulberry32 seed 7) PASSIVES }

/-- Output of one attack resolution: damage amount and crit flag. -/
structure CombatResult where
  damage : Int
  crit : Bool
deriving DecidableEq, Repr

/-- stats.ts damageFormula, with the unseeded uniform roll `Math.random() * 100`
passed in as the explicit parameter `roll` (an exact rational standing for the
drawn float).  `0.75` is exactly 3/4 in binary floating point and
`Math.ceil(base * 0.75)` and `Math.floor(luck / 3)` are exact at integer stat
magnitudes, so the Int-valued floor/ceil below are bit-faithful. -/
def damageFormula (atk crit luck : Int) (roll : ℚ) : CombatResult :=
  let base : Int := max 1 atk
  let critChance : Int := min 30 (max 0 crit)
  let isCrit : Bool := decide (roll < (critChance : ℚ))
  let luckBonus : Int := ⌊(luck : ℚ) / 3⌋
  { damage := base + luckBonus + (if isCrit then ⌈(base : ℚ) * (3 / 4)⌉ else 0)
    crit := isCrit }

/-- The documented damage formula, transcribed from its published wording for
the refinement comparison of claim C3: `base = max(1, atk)`,
`critChance = clamp(crit, 0, 30)`, `isCrit = roll < critChance`,
`luckBonus = floor(luck / 3)`,
`damage = base + luckBonus + (isCrit ? ceil(base * 0.75) : 0)`. -/
def resolveAttackDoc (atk crit luck : Int) (roll : ℚ) : CombatResult :=
  let base : Int := max 1 atk
  let critChance : Int := min (max crit 0) 30
  let isCrit : Bool := decide (roll < (critChance : ℚ))
  let luckBonus : Int := ⌊(luck : ℚ) / 3⌋
  { damage := base + luckBonus + (if isCrit then ⌈(base : ℚ) * (3 / 4)⌉ else 0)
    crit := isCrit }

/-- Run status: the only two values ever stored by the routes
('active' at /runs/start, 'finished' at completion). -/
inductive RunStatus
  | active
  | finished
deriving DecidableEq, Repr

/-- One reward grant `{currency, amount}`. -/
structure Reward where
  currency : String
  amount : Nat
deriving DecidableEq, Repr

/-- Terminal outcome payload persisted and returned on completion. -/
structure Outcome where
  result : String
  rooms : Nat
  rewards : List Reward
deriving DecidableEq, Repr

/-- The run row as /runs/act reads and writes it: status, the state JSON
fields room and hp_loss, and the outcome column (null until completion). -/
structure Run where
  status : RunStatus
  room : Nat
  hp_loss : Nat
  outcome : Option Outcome
deriving DecidableEq, Repr

/-- The action enum accepted by the /runs/act body. -/
inductive Action
  | ATTACK
  | DEFEND
  | FLEE
deriving DecidableEq, Repr

/-- The reply sent by the /runs/act handler: the 400 error body, the finished
body carrying the outcome, or the active body carrying the updated state. -/
inductive Reply
  | err (msg : String)
  | finished (outcome : Outcome)
  | active (room : Nat) (hp_loss : Nat)
deriving DecidableEq, Repr

/-- Everything one /runs/act call does to the world: the run row after the
call, the transaction ledger rows inserted by the call, and the reply.  The
encounter-log insert of the non-finished branch touches none of these. -/
structure ActResult where
  db : Run
  txns : List Reward
  reply : Reply
deriving DecidableEq, Repr

/-- The fixed completion rewards (guilds.routes.js: rewardGold = 40,
rewardDust = 12), as both the outcome's reward list and the inserted
transaction rows. -/
def runRewards : List Reward := [⟨"gold", 40⟩, ⟨"dust", 12⟩]

/-- The outcome constructed on completion:
`{result: "victory", rooms: nextRoom, rewards: [gold 40, dust 12]}`. -/
def victoryOutcome (rooms : Nat) : Outcome := ⟨"victory", rooms, runRewards⟩

/-- The /runs/act handler (guilds.routes.js lines 78-123) on a run it found:
reject unless status is 'active'; otherwise nextRoom = room + 1 is written
back, and if nextRoom >= 5 the run is marked finished with the victory outcome
and the two reward transactions are inserted, else the run stays active.  The
action from the request body is validated but never read by the simulation. -/
def advanceRun (run : Run) (action : Action) : ActResult :=
  if run.status ≠ RunStatus.active then
    { db := run, txns := [], reply := Reply.err "RUN_NOT_ACTIVE" }
  else
    let nextRoom := run.room + 1
    if 5 ≤ nextRoom then
      { db := { run with
                  status := RunStatus.finished
                  room := nextRoom
                  outcome := some (victoryOutcome nextRoom) }
        txns := runRewards
        reply := Reply.finished (victoryOutcome nextRoom) }
    else
      { db := { run with room := nextRoom }
        txns := []
        reply := Reply.active nextRoom run.hp_loss }

/-- The run row inserted by /runs/start: status 'active', state
`{room: 0, hp_loss: 0}`, outcome null. -/
def initialRun : Run := ⟨RunStatus.active, 0, 0, none⟩

/-- The persisted run row after a sequence of /runs/act calls (each call reads
the row the previous call left behind; a rejected call leaves it unchanged). -/
def applyActs (run : Run) : List Action → Run
  | [] => run
  | a :: rest => applyActs (advanceRun run a).db rest

/- ------------------------------------------------------------------ -/
/- Helper lemmas -/
/- ------------------------------------------------------------------ -/

lemma toUint32_lt (s : Int) : toUint32 s < U32 := by
  unfold toUint32
  have h0 : 0 ≤ s % (U32 : Int) := Int.emod_nonneg s (by norm_num [U32])
  have h1 : s % (U32 : Int) < (U32 : Int) := Int.emod_lt_of_pos s (by norm_num [U32])
  omega

lemma mulberryMix_lt (t : Nat) : mulberryMix t < U32 := by
  simp only [mulberryMix]
  exact Nat.mod_lt _ (by norm_num [U32])

lemma mulberry32_lt (seed : Int) (n : Nat) : mulberry32 seed n < U32 :=
  mulberryMix_lt _

lemma mulberryMix_mod (t : Nat) : mulberryMix (t % U32) = mulberryMix t := by
  simp only [mulberryMix, Nat.mod_mod_of_dvd _ dvd_rfl]

lemma roundNE_exact {s : Nat} (h : s ≤ 2 ^ 53) : roundNE s = s := by
  rcases Nat.lt_or_ge s (2 ^ 53) with hlt | hge
  · unfold roundNE ulpExp
    rw [if_pos hlt]
    simp only [pow_zero, Nat.mod_one, Nat.div_one, mul_one, mul_zero]
    norm_num
  · have hs : s = 2 ^ 53 := le_antisymm h hge
    subst hs
    decide

lemma implT_closed (seed : Int) : ∀ n, implT seed n = toUint32 seed + n * KADD
  | 0 => by simp [implT]
  | n + 1 => by
      show implT seed n + KADD = toUint32 seed + (n + 1) * KADD
      rw [implT_closed seed n]
      ring

lemma refT_closed (seed : Int) : ∀ n, refT seed n = (toUint32 seed + n * KADD) % U32
  | 0 => by
      show toUint32 seed = (toUint32 seed + 0 * KADD) % U32
      simp [Nat.mod_eq_of_lt (toUint32_lt seed)]
  | n + 1 => by
      show (refT seed n + KADD) % U32 = (toUint32 seed + (n + 1) * KADD) % U32
      rw [refT_closed seed n]
      simp only [U32, KADD]
      omega

lemma floatT_exact (seed : Int) :
    ∀ n, toUint32 seed + n * KADD ≤ 2 ^ 53 →
      floatT seed n = toUint32 seed + n * KADD
  | 0 => by
      intro _
      simp [floatT]
  | n + 1 => by
      intro h
      have hn : toUint32 seed + n * KADD ≤ 2 ^ 53 := by
        simp only [KADD] at h ⊢
        omega
      show roundNE (floatT seed n + KADD) = toUint32 seed + (n + 1) * KADD
      rw [floatT_exact seed n hn]
      have harith : toUint32 seed + n * KADD + KADD = toUint32 seed + (n + 1) * KADD := by
        ring
      rw [harith]
      exact roundNE_exact h

lemma implT_emod_seed (seed : Int) : ∀ n, implT (seed % (U32 : Int)) n = implT seed n
  | 0 => by
      show toUint32 (seed % (U32 : Int)) = toUint32 seed
      unfold toUint32
      rw [Int.emod_emod_of_dvd seed dvd_rfl]
  | n + 1 => by
      show implT (seed % (U32 : Int)) n + KADD = implT seed n + KADD
      rw [implT_emod_seed seed n]

lemma ARCHETYPES_base_bounds :
    ∀ i, i < 4 →
      95 ≤ (ARCHETYPES.getD i default).base.hp ∧
      12 ≤ (ARCHETYPES.getD i default).base.atk ∧
      7 ≤ (ARCHETYPES.getD i default).base.«def» ∧
      10 ≤ (ARCHETYPES.getD i default).base.spd := by
  decide

lemma archetype_pick_base_bounds (seed : Int) :
    95 ≤ (pick (mulberry32 seed 0) ARCHETYPES).base.hp ∧
    12 ≤ (pick (mulberry32 seed 0) ARCHETYPES).base.atk ∧
    7 ≤ (pick (mulberry32 seed 0) ARCHETYPES).base.«def» ∧
    10 ≤ (pick (mulberry32 seed 0) ARCHETYPES).base.spd := by
  have hx := mulberry32_lt seed 0
  have hlen : ARCHETYPES.length = 4 := rfl
  have hidx : mulberry32 seed 0 * ARCHETYPES.length / U32 < 4 := by
    rw [hlen]
    simp only [U32] at hx ⊢
    omega
  unfold pick
  exact ARCHETYPES_base_bounds _ hidx

lemma randInt_roll_bounds {x : Nat} (hx : x < U32) :
    -3 ≤ randInt x (-3) 5 ∧ randInt x (-3) 5 ≤ 5 := by
  unfold randInt
  have h9 : ((5 : Int) - (-3) + 1).toNat = 9 := by decide
  rw [h9]
  simp only [U32] at hx ⊢
  omega

lemma gen_core_stats_pos (seed : Int) :
    0 < (generateDailyCharacter seed).stats.hp ∧
    0 < (generateDailyCharacter seed).stats.atk ∧
    0 < (generateDailyCharacter seed).stats.«def» ∧
    0 < (generateDailyCharacter seed).stats.spd := by
  obtain ⟨bh, ba, bd, bs⟩ := archetype_pick_base_bounds seed
  have r1 := (randInt_roll_bounds (mulberry32_lt seed 1)).1
  have r2 := (randInt_roll_bounds (mulberry32_lt seed 2)).1
  have r3 := (randInt_roll_bounds (mulberry32_lt seed 3)).1
  have r4 := (randInt_roll_bounds (mulberry32_lt seed 4)).1
  refine ⟨?_, ?_, ?_, ?_⟩
  · show 0 < (pick (mulberry32 seed 0) ARCHETYPES).base.hp +
        randInt (mulberry32 seed 1) (-3) 5
    omega
  · show 0 < (pick (mulberry32 seed 0) ARCHETYPES).base.atk +
        randInt (mulberry32 seed 2) (-3) 5
    omega
  · show 0 < (pick (mulberry32 seed 0) ARCHETYPES).base.«def» +
        randInt (mulberry32 seed 3) (-3) 5
    omega
  · show 0 < (pick (mulberry32 seed 0) ARCHETYPES).base.spd +
        randInt (mulberry32 seed 4) (-3) 5
    omega

lemma advanceRun_not_active {run : Run} (a : Action)
    (h : run.status ≠ RunStatus.active) :
    advanceRun run a = { db := run, txns := [], reply := Reply.err "RUN_NOT_ACTIVE" } := by
  unfold advanceRun
  rw [if_pos h]

lemma advanceRun_active_step {run : Run} (a : Action)
    (hst : run.status = RunStatus.active) (hr : run.room + 1 ≤ 4) :
    advanceRun run a =
      { db := { run with room := run.room + 1 }, txns := []
        reply := Reply.active (run.room + 1) run.hp_loss } := by
  unfold advanceRun
  rw [if_neg (by simp [hst]), if_neg (by omega)]

lemma advanceRun_active_finish {run : Run} (a : Action)
    (hst : run.status = RunStatus.active) (hr : 5 ≤ run.room + 1) :
    advanceRun run a =
      { db := { run with
                  status := RunStatus.finished
                  room := run.room + 1
                  outcome := some (victoryOutcome (run.room + 1)) }
        txns := runRewards
        reply := Reply.finished (victoryOutcome (run.room + 1)) } := by
  unfold advanceRun
  rw [if_neg (by simp [hst]), if_pos (by omega)]

lemma applyActs_under_threshold (acts : List Action) :
    ∀ (r h : Nat) (o : Option Outcome), r + acts.length ≤ 4 →
      applyActs ⟨RunStatus.active, r, h, o⟩ acts =
        ⟨RunStatus.active, r + acts.length, h, o⟩ := by
  induction acts with
  | nil =>
      intro r h o _
      simp [applyActs]
  | cons a rest ih =>
      intro r h o hlen
      simp only [List.length_cons] at hlen ⊢
      show applyActs (advanceRun ⟨RunStatus.active, r, h, o⟩ a).db rest = _
      rw [advanceRun_active_step a rfl (show r + 1 ≤ 4 by omega)]
      show applyActs ⟨RunStatus.active, r + 1, h, o⟩ rest = _
      rw [ih (r + 1) h o (by omega)]
      have harith : r + 1 + rest.length = r + (rest.length + 1) := by omega
      rw [harith]

lemma applyActs_to_finish (acts : List Action) :
    ∀ (r h : Nat) (o : Option Outcome), acts ≠ [] → r + acts.length = 5 →
      applyActs ⟨RunStatus.active, r, h, o⟩ acts =
        ⟨RunStatus.finished, 5, h, some (victoryOutcome 5)⟩ := by
  induction acts with
  | nil =>
      intro _ _ _ hne _
      exact absurd rfl hne
  | cons a rest ih =>
      intro r h o _ hlen
      simp only [List.length_cons] at hlen
      show applyActs (advanceRun ⟨RunStatus.active, r, h, o⟩ a).db rest = _
      cases rest with
      | nil =>
          simp only [List.length_nil] at hlen
          rw [advanceRun_active_finish a rfl (show 5 ≤ r + 1 by omega)]
          show (⟨RunStatus.finished, r + 1, h, some (victoryOutcome (r + 1))⟩ : Run) = _
          have h5 : r + 1 = 5 := by omega
          rw [h5]
      | cons b rest2 =>
          have hlen2 : r + 1 + (b :: rest2).length = 5 := by
            simp only [List.length_cons] at hlen ⊢
            omega
          have hstep : r + 1 ≤ 4 := by
            simp only [List.length_cons] at hlen2
            omega
          rw [advanceRun_active_step a rfl hstep]
          show applyActs ⟨RunStatus.active, r + 1, h, o⟩ (b :: rest2) = _
          exact ih (r + 1) h o (by simp) hlen2

/- ------------------------------------------------------------------ -/
/- Claim theorems -/
/- ------------------------------------------------------------------ -/

/-- Claim C1: generateDailyCharacter is a pure function of its seed: for every
seed, two invocations produce identical outputs (same archetype_id,
archetype_name, all six stats, and passive).  In the embedding each invocation
constructs its PRNG state from the seed alone (implT has no ambient state),
mirroring the fresh mulberry32 closure built inside generateDailyCharacter in
stats.ts; the stats.ts module holds no mutable module-level state, so no state
is carried between calls. -/
theorem generateDailyCharacter_deterministic (seed : Int) :
    (generateDailyCharacter seed).archetype_id = (generateDailyCharacter seed).archetype_id ∧
    (generateDailyCharacter seed).archetype_name = (generateDailyCharacter seed).archetype_name ∧
    (generateDailyCharacter seed).stats.hp = (generateDailyCharacter seed).stats.hp ∧
    (generateDailyCharacter seed).stats.atk = (generateDailyCharacter seed).stats.atk ∧
    (generateDailyCharacter seed).stats.«def» = (generateDailyCharacter seed).stats.«def» ∧
    (generateDailyCharacter seed).stats.spd = (generateDailyCharacter seed).stats.spd ∧
    (generateDailyCharacter seed).stats.crit = (generateDailyCharacter seed).stats.crit ∧
    (generateDailyCharacter seed).stats.luck = (generateDailyCharacter seed).stats.luck ∧
    (generateDailyCharacter seed).passive = (generateDailyCharacter seed).passive :=
  ⟨rfl, rfl, rfl, rfl, rfl, rfl, rfl, rfl, rfl⟩

/-- Claim C2: run lifecycle.  From status 'active', every advanceRun call
increments the room counter by exactly 1; starting at room 0, after any 4
calls the run is still active with room equal to the number of calls, the 5th
call (with any actions along the way) finishes the run with outcome
result "victory", rooms = 5, rewards gold 40 and dust 12 (also inserted as
ledger rows), and a 6th call is rejected with the invalid-state error. -/
theorem advanceRun_lifecycle :
    (∀ (run : Run) (a : Action), run.status = RunStatus.active →
        (advanceRun run a).db.room = run.room + 1) ∧
    (∀ acts : List Action, acts.length ≤ 4 →
        applyActs initialRun acts = ⟨RunStatus.active, acts.length, 0, none⟩) ∧
    (∀ acts : List Action, acts.length = 4 → ∀ a : Action,
        advanceRun (applyActs initialRun acts) a =
          { db := ⟨RunStatus.finished, 5, 0, some (victoryOutcome 5)⟩,
            txns := runRewards, reply := Reply.finished (victoryOutcome 5) }) ∧
    (∀ acts : List Action, acts.length = 5 → ∀ a : Action,
        advanceRun (applyActs initialRun acts) a =
          { db := ⟨RunStatus.finished, 5, 0, some (victoryOutcome 5)⟩,
            txns := [], reply := Reply.err "RUN_NOT_ACTIVE" }) := by
  refine ⟨?_, ?_, ?_, ?_⟩
  · intro run a hst
    by_cases hc : 5 ≤ run.room + 1
    · rw [advanceRun_active_finish a hst hc]
    · rw [advanceRun_active_step a hst (by omega)]
  · intro acts hlen
    have := applyActs_under_threshold acts 0 0 none (by omega)
    simpa using this
  · intro acts hlen a
    show advanceRun (applyActs ⟨RunStatus.active, 0, 0, none⟩ acts) a = _
    rw [applyActs_under_threshold acts 0 0 none (by omega), hlen]
    rw [advanceRun_active_finish a rfl (show 5 ≤ 0 + 4 + 1 by omega)]
  · intro acts hlen a
    show advanceRun (applyActs ⟨RunStatus.active, 0, 0, none⟩ acts) a = _
    rw [applyActs_to_finish acts 0 0 none
          (by rintro rfl; simp at hlen) (by omega)]
    rw [advanceRun_not_active a (by simp)]

/-- Witness for C2 at concrete inputs: one call from the start increments room
to 1; three concrete calls leave the run active at room 3; a concrete 5th call
finishes with the victory outcome and both rewards; a concrete 6th call is
rejected. -/
theorem advanceRun_lifecycle_witness :
    (advanceRun initialRun Action.ATTACK).db.room = initialRun.room + 1 ∧
    applyActs initialRun [Action.ATTACK, Action.DEFEND, Action.FLEE] =
      ⟨RunStatus.active, 3, 0, none⟩ ∧
    advanceRun
        (applyActs initialRun [Action.ATTACK, Action.ATTACK, Action.DEFEND, Action.FLEE])
        Action.DEFEND =
      { db := ⟨RunStatus.finished, 5, 0, some (victoryOutcome 5)⟩,
        txns := runRewards, reply := Reply.finished (victoryOutcome 5) } ∧
    advanceRun
        (applyActs initialRun
          [Action.ATTACK, Action.ATTACK, Action.ATTACK, Action.DEFEND, Action.FLEE])
        Action.ATTACK =
      { db := ⟨RunStatus.finished, 5, 0, some (victoryOutcome 5)⟩,
        txns := [], reply := Reply.err "RUN_NOT_ACTIVE" } :=
  ⟨advanceRun_lifecycle.1 initialRun Action.ATTACK rfl,
   advanceRun_lifecycle.2.1 [Action.ATTACK, Action.DEFEND, Action.FLEE] (by decide),
   advanceRun_lifecycle.2.2.1
     [Action.ATTACK, Action.ATTACK, Action.DEFEND, Action.FLEE] (by decide) Action.DEFEND,
   advanceRun_lifecycle.2.2.2
     [Action.ATTACK, Action.ATTACK, Action.ATTACK, Action.DEFEND, Action.FLEE]
     (by decide) Action.ATTACK⟩

/-- Claim C3: damageFormula computes damage exactly by the documented formula
(base = max(1, atk), critChance = clamp(crit, 0, 30), isCrit iff
roll < critChance, luckBonus = floor(luck / 3), damage = base + luckBonus +
crit bonus ceil(base * 0.75), crit flag = isCrit) for every stat triple and
every roll in [0, 100). -/
theorem damageFormula_matches_documented_formula
    (atk crit luck : Int) (roll : ℚ) (h0 : 0 ≤ roll) (h1 : roll < 100) :
    damageFormula atk crit luck roll = resolveAttackDoc atk crit luck roll := by
  unfold damageFormula resolveAttackDoc
  rw [min_comm 30 (max 0 crit), max_comm 0 crit]

/-- Witness for C3 at the documented boundary input: stats {atk 10, crit 0,
luck 0} and roll 50 agree with the documented formula and evaluate to damage
10 with no crit. -/
theorem damageFormula_matches_documented_formula_witness :
    (0 : ℚ) ≤ 50 ∧ (50 : ℚ) < 100 ∧
    damageFormula 10 0 0 50 = resolveAttackDoc 10 0 0 50 ∧
    damageFormula 10 0 0 50 = ⟨10, false⟩ :=
  ⟨by norm_num, by norm_num,
   damageFormula_matches_documented_formula 10 0 0 50 (by norm_num) (by norm_num),
   by unfold damageFormula; norm_num⟩

/-- Claim C4: PRNG range.  For every seed and every draw index, the value
returned by the mulberry32 generator lies in the half-open interval [0, 1). -/
theorem mulberry32_output_in_unit_interval (seed : Int) (n : Nat) :
    0 ≤ mulberryValue seed n ∧ mulberryValue seed n < 1 := by
  constructor
  · unfold mulberryValue
    positivity
  · unfold mulberryValue
    rw [div_lt_one (by norm_num [U32])]
    exact_mod_cast mulberry32_lt seed n

/-- Counterexample refuting C5 as stated: under genuine binary64 accumulator
semantics the implementation does not agree with the fully-masked reference at
every draw index.  For seed 0, draw index 4917758 is the first update whose
exact sum 4917759 * 0x6D2B79F5 = 9007199260973067 exceeds 2^53 and is odd, so
the double addition rounds it (ties to even) to 9007199260973068, whereas the
masked reference keeps the exact residue; the two draws differ. -/
theorem mulberry32_double_diverges_from_masked_reference :
    mulberry32Double 0 4917758 ≠ mulberry32Ref 0 4917758 := by
  have hN0 : floatT 0 4917758 = 9007197429407254 := by
    rw [floatT_exact 0 4917758 (by decide)]
    decide
  have hstep : ∀ m : Nat, floatT 0 (m + 1) = roundNE (floatT 0 m + KADD) := fun _ => rfl
  have hC1 : floatT 0 (4917758 + 1) = 9007199260973068 := by
    rw [hstep 4917758, hN0]
    decide
  have hr : refT 0 (4917758 + 1) = 6232075 := by
    rw [refT_closed 0 (4917758 + 1)]
    decide
  show mulberryMix (floatT 0 (4917758 + 1)) ≠ mulberryMix (refT 0 (4917758 + 1))
  rw [hC1, hr]
  decide

/-- Claim C5 as amended: the implementation, whose stored accumulator t is a
binary64 double that is never masked and only coerced mod 2^32 at its use
sites inside the mixing, returns the same numerator and value as the
fully-masked reference Mulberry32 at every draw index at which its accumulator
is still exact, i.e. while toUint32(seed) + (n+1) * 0x6D2B79F5 stays at most
2^53 (about the first 4.9 million draws); in that regime it also agrees with
the exact-integer idealization implT.  Beyond 2^53 the rounding of
`t += 0x6D2B79F5` makes the accumulators diverge (see the counterexample). -/
theorem mulberry32_eq_masked_reference_in_exact_regime (seed : Int) (n : Nat)
    (h : toUint32 seed + (n + 1) * KADD ≤ 2 ^ 53) :
    mulberry32Double seed n = mulberry32 seed n ∧
    mulberry32Double seed n = mulberry32Ref seed n ∧
    mulberryValueDouble seed n = mulberryValueRef seed n := by
  have hf : floatT seed (n + 1) = toUint32 seed + (n + 1) * KADD :=
    floatT_exact seed (n + 1) h
  have h1 : mulberry32Double seed n = mulberry32 seed n := by
    unfold mulberry32Double mulberry32
    rw [hf, implT_closed seed (n + 1)]
  have h2 : mulberry32Double seed n = mulberry32Ref seed n := by
    unfold mulberry32Double mulberry32Ref
    rw [hf, refT_closed seed (n + 1), mulberryMix_mod]
  refine ⟨h1, h2, ?_⟩
  unfold mulberryValueDouble mulberryValueRef
  rw [h2]

/-- Witness for the amended C5 at seed 0, draw index 0 (accumulator far below
2^53): the binary64 draw, the idealized draw and the masked-reference draw all
agree. -/
theorem mulberry32_eq_masked_reference_in_exact_regime_witness :
    toUint32 0 + (0 + 1) * KADD ≤ 2 ^ 53 ∧
    mulberry32Double 0 0 = mulberry32 0 0 ∧
    mulberry32Double 0 0 = mulberry32Ref 0 0 ∧
    mulberryValueDouble 0 0 = mulberryValueRef 0 0 :=
  ⟨by decide,
   (mulberry32_eq_masked_reference_in_exact_regime 0 0 (by decide)).1,
   (mulberry32_eq_masked_reference_in_exact_regime 0 0 (by decide)).2.1,
   (mulberry32_eq_masked_reference_in_exact_regime 0 0 (by decide)).2.2⟩

/-- Claim C6: stat flooring.  For every seed the generated crit and luck are
at least 0 (floored by Math.max(0, rolled)), while hp, atk, def and spd are
exactly the picked archetype's base plus the raw randInt(-3, 5) roll, with no
floor applied. -/
theorem generateDailyCharacter_stat_flooring (seed : Int) :
    0 ≤ (generateDailyCharacter seed).stats.crit ∧
    0 ≤ (generateDailyCharacter seed).stats.luck ∧
    (generateDailyCharacter seed).stats.hp =
      (pick (mulberry32 seed 0) ARCHETYPES).base.hp + randInt (mulberry32 seed 1) (-3) 5 ∧
    (generateDailyCharacter seed).stats.atk =
      (pick (mulberry32 seed 0) ARCHETYPES).base.atk + randInt (mulberry32 seed 2) (-3) 5 ∧
    (generateDailyCharacter seed).stats.«def» =
      (pick (mulberry32 seed 0) ARCHETYPES).base.«def» + randInt (mulberry32 seed 3) (-3) 5 ∧
    (generateDailyCharacter seed).stats.spd =
      (pick (mulberry32 seed 0) ARCHETYPES).base.spd + randInt (mulberry32 seed 4) (-3) 5 :=
  ⟨le_max_left 0 _, le_max_left 0 _, rfl, rfl, rfl, rfl⟩

/-- Claim C7: advanceRun on a run whose status is not 'active' fails with the
handler's invalid-state error RUN_NOT_ACTIVE, leaves the run row (state,
status, outcome) untouched and inserts no reward transactions; since the
status domain is {active, finished}, the rejected run's current state is
exactly 'finished', which the not-active error thereby identifies. -/
theorem advanceRun_rejects_non_active (run : Run) (a : Action)
    (h : run.status ≠ RunStatus.active) :
    advanceRun run a = { db := run, txns := [], reply := Reply.err "RUN_NOT_ACTIVE" } ∧
    run.status = RunStatus.finished := by
  refine ⟨advanceRun_not_active a h, ?_⟩
  cases hs : run.status with
  | active => exact absurd hs h
  | finished => rfl

/-- Witness for C7 at a concrete already-finished run: the call errors with
RUN_NOT_ACTIVE, the row is unchanged and no rewards are applied again. -/
theorem advanceRun_rejects_non_active_witness :
    advanceRun ⟨RunStatus.finished, 5, 0, some (victoryOutcome 5)⟩ Action.ATTACK =
      { db := ⟨RunStatus.finished, 5, 0, some (victoryOutcome 5)⟩, txns := [],
        reply := Reply.err "RUN_NOT_ACTIVE" } ∧
    (⟨RunStatus.finished, 5, 0, some (victoryOutcome 5)⟩ : Run).status =
      RunStatus.finished :=
  advanceRun_rejects_non_active ⟨RunStatus.finished, 5, 0, some (victoryOutcome 5)⟩
    Action.ATTACK (by decide)

/-- Claim C8: action noninterference.  For every active run and every pair of
actions, advanceRun produces literally the same result (run row, transactions
and reply), and the room counter advances by exactly 1; the action argument
has no influence on the simulation. -/
theorem advanceRun_action_noninterference (run : Run) (a b : Action)
    (h : run.status = RunStatus.active) :
    advanceRun run a = advanceRun run b ∧
    (advanceRun run a).db.room = run.room + 1 := by
  constructor
  · rfl
  · by_cases hc : 5 ≤ run.room + 1
    · rw [advanceRun_active_finish a h hc]
    · rw [advanceRun_active_step a h (by omega)]

/-- Witness for C8 at the initial run with the action pair (ATTACK, FLEE). -/
theorem advanceRun_action_noninterference_witness :
    advanceRun initialRun Action.ATTACK = advanceRun initialRun Action.FLEE ∧
    (advanceRun initialRun Action.ATTACK).db.room = initialRun.room + 1 :=
  advanceRun_action_noninterference initialRun Action.ATTACK Action.FLEE rfl

/-- Counterexample for C9: the out-of-range seed 2^32 + 5 is not rejected:
mulberry32 accepts it, silently truncating it with `seed >>> 0` to 5, so its
generator's initial state and first draw coincide with those of seed 5. -/
theorem mulberry32_accepts_out_of_range_seed :
    (4294967301 : Int) = 2 ^ 32 + 5 ∧
    toUint32 4294967301 = toUint32 5 ∧
    implT 4294967301 0 = 5 ∧
    mulberry32 4294967301 0 = mulberry32 5 0 :=
  ⟨by norm_num, by decide, by decide, by decide⟩

/-- Claim C9 as amended: mulberry32 performs no seed validation; the seed is
silently coerced with `seed >>> 0` (ToUint32), so every seed is accepted and
any seed reduced mod 2^32 constructs an identical generator: every draw
agrees. -/
theorem mulberry32_truncates_seed_mod_2_32 (seed : Int) (n : Nat) :
    mulberry32 seed n = mulberry32 (seed % (U32 : Int)) n := by
  unfold mulberry32
  rw [implT_emod_seed seed (n + 1)]

/-- Counterexample dischargeing C10 as stated: there is no seed at all for
which any of the generated hp, atk, def or spd is negative — every archetype
base is at least 7 and the roll is at least -3, so the unfloored stats stay
positive. -/
theorem no_seed_generates_negative_core_stat :
    ¬ ∃ seed : Int,
        (generateDailyCharacter seed).stats.hp < 0 ∨
        (generateDailyCharacter seed).stats.atk < 0 ∨
        (generateDailyCharacter seed).stats.«def» < 0 ∨
        (generateDailyCharacter seed).stats.spd < 0 := by
  rintro ⟨seed, hneg⟩
  obtain ⟨h1, h2, h3, h4⟩ := gen_core_stats_pos seed
  rcases hneg with h | h | h | h <;> omega

/-- Claim C10 as amended: although no floor is applied to hp, atk, def and
spd, for every seed all four are strictly positive, because the smallest base
stat in the fixed catalog is 7 and the roll range is -3..+5. -/
theorem generateDailyCharacter_core_stats_positive (seed : Int) :
    0 < (generateDailyCharacter seed).stats.hp ∧
    0 < (generateDailyCharacter seed).stats.atk ∧
    0 < (generateDailyCharacter seed).stats.«def» ∧
    0 < (generateDailyCharacter seed).stats.spd :=
  gen_core_stats_pos seed

end Kyrhanu
